import Mathlib

/-
  Verification of the superconfig layered-configuration library.

  The Python sources are shallowly embedded: pure functions become Lean
  functions, stateful objects become explicit state passing, time.time()
  becomes an explicit `now : Nat` parameter, and Python exceptions become
  `Except` results.  Values stored in a configuration are abstracted by a
  type parameter `α`; Python's `None`-able values become `Option α`.

  The repository is a mid-refactor snapshot: `smarts.py`, `helpers.py` and
  `loaders.py` call `Response` accessors (`is_found`, `must_stop`,
  `go_next_layer`, `still_unexpired`, `cache_until`, `new_value`,
  `found_next`) and a `Context.globs` attribute that are not defined in
  `config.py`.  Those missing members are modelled from the spec and are
  marked as such in their doc comments.
-/

namespace Superconfig

/-- Modelled from the spec: `config.Context` is an empty class in the source
("State which is passed between levels"); the spec's data model gives it the
wildcard-capture bindings (`globs`) consulted by numeric template
placeholders.  An empty list models a falsy/absent `globs`. -/
structure Context where
  globs : List (String × String)
deriving Repr, DecidableEq

/-- Embeds `config.Response` (a NamedTuple with fields
`found, stop, next_layer, value, expire`).  Timestamps are `Nat`. -/
structure Response (α : Type) where
  found : Bool
  stop : Bool
  next_layer : Bool
  value : Option α
  expire : Option Nat
deriving Repr, DecidableEq

namespace Response

/-- Embeds the classmethod `Response.found(value, expire=None)` (renamed:
`found` is already the field name). -/
def found' {α} (v : Option α) (e : Option Nat) : Response α :=
  ⟨true, false, false, v, e⟩

/-- Embeds `Response.not_found`. -/
def not_found {α} : Response α := ⟨false, false, false, none, none⟩

/-- Embeds `Response.not_found_stop`. -/
def not_found_stop {α} : Response α := ⟨false, true, false, none, none⟩

/-- Embeds `Response.not_found_next`. -/
def not_found_next {α} : Response α := ⟨false, false, true, none, none⟩

/-- Embeds the classmethod `Response.not_found_cached(expire)`. -/
def not_found_cached {α} (e : Option Nat) : Response α :=
  ⟨false, false, false, none, e⟩

/-- Embeds the property `Response.has_expired`:
`self.expire is None or self.expire >= time.time()`. -/
def has_expired {α} (r : Response α) (now : Nat) : Bool :=
  match r.expire with
  | none => true
  | some e => decide (e ≥ now)

/-- Modelled from the spec: accessor `is_found` used by `smarts.py` et al.
but missing from `config.py`'s `Response`; the spec's response state is
`Found` exactly when a value was found. -/
def is_found {α} (r : Response α) : Bool := r.found

/-- Modelled from the spec: accessor `must_stop` (the `NotFoundStop` state
of the spec's three-way protocol), missing from `config.py`. -/
def must_stop {α} (r : Response α) : Bool := r.stop

/-- Modelled from the spec: accessor `go_next_layer` (the "continue in the
next layer" flag), missing from `config.py`. -/
def go_next_layer {α} (r : Response α) : Bool := r.next_layer

/-- Modelled from the spec: constructor `Response.found_next(value)` --
"found, but still let other layers override" (`found_next` semantics),
missing from `config.py`. -/
def found_next {α} (v : Option α) : Response α :=
  ⟨true, false, true, v, none⟩

/-- Modelled from the spec: `still_unexpired(now)` used by the cache layers,
missing from `config.py`; the spec says a cached entry is served while
`now < expiry`.  An entry with no expiry is not still-unexpired. -/
def still_unexpired {α} (r : Response α) (now : Nat) : Bool :=
  match r.expire with
  | none => false
  | some e => decide (now < e)

/-- Modelled from the spec: `cache_until(t)` returns a copy of the response
with expiry `t` attached, other fields unaffected. -/
def cache_until {α} (r : Response α) (t : Nat) : Response α :=
  { r with expire := some t }

/-- Modelled from the spec: `new_value(v)` returns a copy of the response
carrying the transformed value, other fields unaffected. -/
def new_value {α} (r : Response α) (v : Option α) : Response α :=
  { r with value := v }

end Response

/-! Dotted-key segmentation.  Python's `key.split(".")` and `".".join(xs)`
are embedded as executable char-list recursions (`String.splitOn` does not
reduce in the kernel). -/

/-- Splits a character list on `'.'`; `splitCh "".data = [[]]`, matching
Python's `"".split(".") == [""]`. -/
def splitCh : List Char → List (List Char)
  | [] => [[]]
  | c :: cs =>
    if c = '.' then [] :: splitCh cs
    else
      match splitCh cs with
      | [] => [[c]]
      | g :: gs => (c :: g) :: gs

/-- Embeds Python `key.split(".")`. -/
def splitDots (s : String) : List String :=
  (splitCh s.data).map (fun l => ⟨l⟩)

/-- Joins character lists with `'.'`. -/
def joinCh : List (List Char) → List Char
  | [] => []
  | [g] => g
  | g :: gs => g ++ '.' :: joinCh gs

/-- Embeds Python `".".join(xs)`. -/
def joinDots (xs : List String) : String :=
  ⟨joinCh (xs.map String.data)⟩

/-- Prefix test on character lists. -/
def isPrefixCh : List Char → List Char → Bool
  | [], _ => true
  | _ :: _, [] => false
  | a :: as, b :: bs => a = b && isPrefixCh as bs

/-- Fuel-bounded worker for `pyReplace`; the fuel starts at the length of
the subject string and every step consumes at least one character, so fuel
never runs out on the inputs `pyReplace` passes. -/
def replaceChAux (pat rep : List Char) : Nat → List Char → List Char
  | 0, s => s
  | _ + 1, [] => []
  | fuel + 1, c :: cs =>
    if pat ≠ [] ∧ isPrefixCh pat (c :: cs) then
      rep ++ replaceChAux pat rep fuel ((c :: cs).drop pat.length)
    else
      c :: replaceChAux pat rep fuel cs

/-- Embeds Python `t.replace(pat, rep)` (all non-overlapping occurrences,
left to right; the library only calls it with non-empty `pat`). -/
def pyReplace (t pat rep : String) : String :=
  ⟨replaceChAux pat.data rep.data t.data.length t.data⟩

/-! The original tuple protocol of `config.py`: `get_item` returns
`(status, continue, value)` with the `ReadResult` and `Continue` codes. -/

namespace ReadResult

/-- Embeds `ReadResult.NotFound = 0`. -/
def NotFound : Nat := 0

/-- Embeds `ReadResult.Found = 1`. -/
def Found : Nat := 1

end ReadResult

namespace Continue

/-- Embeds `Continue.Stop = 0`. -/
def Stop : Nat := 0

/-- Embeds `Continue.Go = 1`. -/
def Go : Nat := 1

/-- Embeds `Continue.NextLayer = 2`. -/
def NextLayer : Nat := 2

end Continue

/-- The `(status, continue, value)` triple returned by tuple-protocol
layers. -/
abbrev GetResult (α : Type) := Nat × Nat × Option α

/-- A closed lower-layer resolver for the tuple protocol: what
`lower_layer.get_item(key, context, ...)` answers. -/
abbrev LowerResolver (α : Type) := String → Context → GetResult α

/-- A layer pushed onto a `LayerCake`: it receives the key, the context and
its sublayer's resolver (the `lower_layer` argument of
`Layer.get_item`). -/
abbrev PLayer (α : Type) := String → Context → LowerResolver α → GetResult α

namespace NullLayer

/-- Embeds `NullLayer.get_item`: always `(NotFound, Go, None)`. -/
def get_item {α} : LowerResolver α := fun _ _ => (ReadResult.NotFound, Continue.Go, none)

end NullLayer

/-- The linked-list structure built by `LayerCake.push`: a chain is either
the `TerminalLayer` or a `LinkedLayer(layer, sublayer)`. -/
inductive Chain (α : Type) where
  | terminal : Chain α
  | linked (layer : PLayer α) (sublayer : Chain α) : Chain α

namespace Chain

/-- Embeds `LinkedLayer.get_item` / `TerminalLayer.get_item`.  A linked
layer asks its layer first (handing it the sublayer as `lower_layer`; when
the layer queries it, the sublayer's own terminal consults `NullLayer`,
matching the `NullLayer` argument the source passes in such calls), returns
that answer on `Found` or `Continue.Stop`, and otherwise falls through to
the sublayer with the original `lower_layer`.  The terminal layer consults
`lower_layer` (`lower_layer.get_item(key, context, NullLayer)`). -/
def get_item {α} : Chain α → String → Context → LowerResolver α → GetResult α
  | .terminal, key, c, lower => lower key c
  | .linked l sub, key, c, lower =>
    let r := l key c (fun k c' => Chain.get_item sub k c' NullLayer.get_item)
    if r.1 = ReadResult.Found then r
    else if r.2.1 = Continue.Stop then r
    else Chain.get_item sub key c lower

end Chain

namespace LayerCake

/-- Embeds `LayerCake.push`: the pushed layer becomes the new top. -/
def push {α} (stack : Chain α) (l : PLayer α) : Chain α := .linked l stack

end LayerCake

/-- Embeds `layer_stack(layers)`: pushes the reversed list so that earlier
list elements end up on top. -/
def layer_stack {α} (layers : List (PLayer α)) : Chain α :=
  layers.reverse.foldl LayerCake.push .terminal

/-- Every layer of the chain answers neither `Found` nor `Continue.Stop`
(the all-continue hypothesis of the fallthrough claim). -/
def Chain.allContinue {α} : Chain α → Prop
  | .terminal => True
  | .linked l sub =>
    (∀ k c lo, (l k c lo).1 ≠ ReadResult.Found ∧ (l k c lo).2.1 ≠ Continue.Stop)
    ∧ Chain.allContinue sub

/-! The `Response` protocol used by `smarts.py`, `helpers.py` and
`loaders.py`. -/

/-- A closed lower-layer resolver for the `Response` protocol: what
`lower_layer.get_item(key, context, ...)` answers.  (The source passes
`config.NullLayer` as the third argument in these calls.) -/
abbrev RResolver (α : Type) := String → Context → Response α

/-- A `Response`-protocol layer as seen by its caller: receives key,
context and the caller-supplied `lower_layer` resolver. -/
abbrev RLayer (α : Type) := String → Context → RResolver α → Response α

/-- A `smarts.Getter`: `read(key, rest, context, lower_layer)`. -/
abbrev SGetter (α : Type) := String → List String → Context → RResolver α → Response α

/-- One segment of a registered wildcard pattern: a literal segment or the
`\x7b\x7d` wildcard, which the source compiles to the regex group
`([^.]+)` (one non-empty dot-free segment). -/
inductive PatSeg where
  | lit (s : String) : PatSeg
  | wild : PatSeg
deriving Repr, DecidableEq

/-- A compiled key pattern, segment-wise.  The source stores
`re.compile("^" + key.replace("\x7b\x7d", "([^.]+)") + "$")`; matching that
regex against a dot-joined prefix of `i` segments is equivalent to this
segment-wise test, because the prefix contains exactly `i - 1` dots, all of
which must be consumed by the regex's `i - 1` dot metacharacters (literal
segments and `[^.]+` groups cannot match a dot). -/
abbrev Pattern := List PatSeg

/-- Matches one pattern segment against one key segment. -/
def patSegMatches : PatSeg → String → Bool
  | .lit s, seg => s = seg
  | .wild, seg => seg ≠ ""

/-- Matches a whole pattern against the segments of a candidate prefix
(the anchored regex match of the source). -/
def patMatch : Pattern → List String → Bool
  | [], [] => true
  | p :: ps, s :: ss => patSegMatches p s && patMatch ps ss
  | _, _ => false

/-- Embeds the registries of `smarts.SmartLayer`: `constant_key_getters`
(a dict from exact literal keys to getters) and `key_pattern_getters` (a
defaultdict from segment count to the list of compiled patterns registered
for that count, in registration order). -/
structure SmartLayer (α : Type) where
  constant_key_getters : String → Option (SGetter α)
  key_pattern_getters : Nat → List (Pattern × SGetter α)

namespace SmartLayer

/-- The decisive test of `SmartLayer.get_item`:
`resp.is_found or resp.must_stop or resp.go_next_layer`. -/
def decisive {α} (r : Response α) : Bool :=
  r.is_found || r.must_stop || r.go_next_layer

/-- The inner pattern loop of `SmartLayer.get_item` for one prefix length:
walks the registered patterns in order, skips non-matching ones, invokes a
matching getter, and yields its response when decisive (`none` means
"every matched getter said continue"). -/
def tryPatterns {α} (k : String) (pref rest : List String) (c : Context)
    (lower : RResolver α) : List (Pattern × SGetter α) → Option (Response α)
  | [] => none
  | pg :: ps =>
    if patMatch pg.1 pref then
      let resp := pg.2 k rest c lower
      if decisive resp then some resp else tryPatterns k pref rest c lower ps
    else tryPatterns k pref rest c lower ps

/-- The main loop of `SmartLayer.get_item` over candidate prefix lengths
`i`: the exact-literal registration for the joined prefix is consulted
first, then the wildcard patterns registered for `i` segments; a decisive
response is returned, otherwise the next length is tried; exhaustion yields
`Response.not_found`. -/
def tryFrom {α} (sl : SmartLayer α) (indexes : List String) (c : Context)
    (lower : RResolver α) : List Nat → Response α
  | [] => Response.not_found
  | i :: is =>
    let k := joinDots (indexes.take i)
    let constStep : Option (Response α) :=
      match sl.constant_key_getters k with
      | some g =>
        let resp := g k (indexes.drop i) c lower
        if decisive resp then some resp else none
      | none => none
    match constStep with
    | some r => r
    | none =>
      match tryPatterns k (indexes.take i) (indexes.drop i) c lower
          (sl.key_pattern_getters i) with
      | some r => r
      | none => tryFrom sl indexes c lower is

/-- Embeds `SmartLayer.get_item`: empty keys need an explicit root
registration; a registered root getter is consulted first with the whole
key as `rest`; then candidate prefixes of length 1 up to n are tried. -/
def get_item {α} (sl : SmartLayer α) (key : String) (c : Context)
    (lower : RResolver α) : Response α :=
  if key = "" && (sl.constant_key_getters "").isNone then Response.not_found
  else
    let indexes := splitDots key
    let rootStep : Option (Response α) :=
      match sl.constant_key_getters "" with
      | some g =>
        let resp := g "" indexes c lower
        if decisive resp then some resp else none
      | none => none
    match rootStep with
    | some r => r
    | none => tryFrom sl indexes c lower (List.range' 1 indexes.length)

end SmartLayer

/-- Spec-side search for the SmartLayer dispatch claim: the ordered list of
candidate getter invocations the claim describes -- for each prefix length
`i` from 1 to n, the exact-literal registration for `s[1..i]` (if any)
followed by the wildcard patterns registered for `i` segments that match
the prefix -- each recorded with its matched prefix and remaining
segments. -/
def claimCandidates {α} (sl : SmartLayer α) (indexes : List String) :
    List (String × List String × SGetter α) :=
  (List.range' 1 indexes.length).flatMap (fun i =>
    (match sl.constant_key_getters (joinDots (indexes.take i)) with
     | some g => [(joinDots (indexes.take i), indexes.drop i, g)]
     | none => [])
    ++ ((sl.key_pattern_getters i).filter
          (fun pg => patMatch pg.1 (indexes.take i))).map
        (fun pg => (joinDots (indexes.take i), indexes.drop i, pg.2)))

/-- Spec-side runner for the SmartLayer dispatch claim: invokes the
candidates in order; a getter returning `Found` or `NotFoundStop`
immediately becomes the result, `NotFoundContinue` moves on; if every
candidate continues (or none exists) the result is `NotFoundContinue`. -/
def runCandidates {α} (c : Context) (lower : RResolver α) :
    List (String × List String × SGetter α) → Response α
  | [] => Response.not_found
  | cand :: gs =>
    let resp := cand.2.2 cand.1 cand.2.1 c lower
    if resp.is_found || resp.must_stop then resp
    else runCandidates c lower gs

/-- A getter obeys the spec's three-way response protocol: it never sets
the `next_layer` flag. -/
def protoG {α} (g : SGetter α) : Prop :=
  ∀ k rest c lower, (g k rest c lower).go_next_layer = false

namespace Graft

/-- Embeds `Graft.read`: looks the dot-joined `rest` up in the grafted
layer; when the response is not (found and next-layer) it is re-wrapped as
`Response.found_next(resp.value)`, otherwise returned unchanged. -/
def read {α} (layer : RLayer α) (_key : String) (rest : List String)
    (c : Context) (lower : RResolver α) : Response α :=
  let resp := layer (joinDots rest) c lower
  if !resp.is_found || !resp.go_next_layer then Response.found_next resp.value
  else resp

end Graft

/-! Template expansion, `helpers.py`. -/

/-- Embeds `_is_digit.match(exp)`: `re.match(r"\d+", exp)` succeeds exactly
when the string starts with a digit. -/
def isDigitExp (e : String) : Bool :=
  match e.data with
  | [] => false
  | ch :: _ => ch.isDigit

/-- The literal placeholder text rebuilt by the source:
`'\x7b%s\x7d' % exp`. -/
def placeholder (e : String) : String := "\x7b" ++ e ++ "\x7d"

/-- The first loop of `helpers.expand`: builds the replacement list in
expansion order, failing (`None`) as soon as a placeholder does not
resolve.  Numeric placeholders consult `context.globs` (failing when the
bindings are absent/empty or lack the name); others query the lower layer
and fail on a non-`Found` response.  A found response's `None` value is
defaulted (Python would raise there; protocol-obeying responses always
carry a value). -/
def expandReplacements (c : Context) (lower : RResolver String) :
    List String → Option (List (String × String))
  | [] => some []
  | e :: es =>
    if isDigitExp e then
      if c.globs = [] then none
      else
        match c.globs.lookup e with
        | none => none
        | some v => (expandReplacements c lower es).map (fun r => (placeholder e, v) :: r)
    else
      let resp := lower e c
      if !resp.is_found then none
      else (expandReplacements c lower es).map
        (fun r => (placeholder e, resp.value.getD "") :: r)

/-- Embeds `helpers.expand(tmpl, expansions, context, lower_layer)`:
collect all replacements (failing as a whole when any placeholder fails),
then apply them to the template left to right. -/
def expand (tmpl : String) (exps : List String) (c : Context)
    (lower : RResolver String) : Option String :=
  match expandReplacements c lower exps with
  | none => none
  | some reps => some (reps.foldl (fun t pv => pyReplace t pv.1 pv.2) tmpl)

/-! Transform and IgnoreTransformErrors, `smarts.py`.  Getters that may
raise are embedded as `Except`-returning functions; the error type
distinguishes `exceptions.ValueTransformException` (carrying the offending
key and the untransformed value) from every other exception class. -/

/-- An exception escaping a getter: `exceptions.ValueTransformException`
with its `key` and `raw_value` payload, or any other exception. -/
inductive TransformErr (α : Type) where
  | vte (key : String) (raw : Option α) : TransformErr α
  | other : TransformErr α
deriving Repr, DecidableEq

/-- A getter whose `read` may raise. -/
abbrev EGetter (α : Type) :=
  String → List String → Context → RResolver α → Except (TransformErr α) (Response α)

namespace Transform

/-- Embeds `Transform.read`: delegates to the wrapped getter; a non-`Found`
response passes through untouched; on `Found` the function is applied to
the raw value and the response rebuilt with `new_value`; if the function
raises, a `ValueTransformException` carrying the key and the untransformed
value is raised. -/
def read {α} (f : Option α → Except Unit (Option α)) (getter : EGetter α)
    (key : String) (res : List String) (c : Context) (lower : RResolver α) :
    Except (TransformErr α) (Response α) :=
  match getter key res c lower with
  | .error e => .error e
  | .ok resp =>
    if !resp.is_found then .ok resp
    else
      match f resp.value with
      | .ok v => .ok (resp.new_value v)
      | .error _ => .error (.vte key resp.value)

end Transform

namespace IgnoreTransformErrors

/-- Embeds `IgnoreTransformErrors.read`: catches exactly
`exceptions.ValueTransformException` from the wrapped getter and converts
it to `Response.not_found`; every other outcome passes through. -/
def read {α} (getter : EGetter α) (key : String) (res : List String)
    (c : Context) (lower : RResolver α) : Except (TransformErr α) (Response α) :=
  match getter key res c lower with
  | .error (.vte _ _) => .ok Response.not_found
  | .error .other => .error .other
  | .ok r => .ok r

end IgnoreTransformErrors

/-! CacheLayer, `smarts.py`.  The mutable `self.cache` dict becomes an
explicit map threaded through `get_item`; the `ttl_s`/`negative_ttl_s`
callables (evaluated on every read) are modelled by the `Nat` they
yield. -/

/-- The state of a `smarts.CacheLayer`: the per-key response cache and the
two TTLs. -/
structure CacheLayer (α : Type) where
  cache : String → Option (Response α)
  ttl_s : Nat
  negative_ttl_s : Nat

/-- Python dict assignment `cache[key] = r`. -/
def cacheInsert {α} (m : String → Option (Response α)) (k : String)
    (r : Response α) : String → Option (Response α) :=
  fun k' => if k' = k then some r else m k'

/-- Embeds the module-level `_cache(cache, cache_key, resp, now, ttl_s)`:
a response with no expiry of its own is stored and returned with expiry
`now + ttl_s` attached; a response already carrying an expiry is stored
unchanged. -/
def cacheStore {α} (cache : String → Option (Response α)) (key : String)
    (resp : Response α) (now ttl : Nat) :
    Response α × (String → Option (Response α)) :=
  match resp.expire with
  | none =>
    let cr := resp.cache_until (now + ttl)
    (cr, cacheInsert cache key cr)
  | some _ => (resp, cacheInsert cache key resp)

namespace CacheLayer

/-- The cache-miss path of `CacheLayer.get_item`: call through to the
wrapped layer; cache a `Found` response under the positive TTL; return a
not-found response uncached when the negative TTL is zero (falsy), else
cache it under the negative TTL. -/
def readThrough {α} (cl : CacheLayer α) (key : String) (now : Nat)
    (c : Context) (lower : RResolver α) : Response α × CacheLayer α :=
  let resp := lower key c
  if resp.is_found then
    let rm := cacheStore cl.cache key resp now cl.ttl_s
    (rm.1, { cl with cache := rm.2 })
  else if cl.negative_ttl_s = 0 then (resp, cl)
  else
    let rm := cacheStore cl.cache key resp now cl.negative_ttl_s
    (rm.1, { cl with cache := rm.2 })

/-- Embeds `CacheLayer.get_item`: a cached, still-unexpired entry is
returned as-is without consulting the wrapped layer; otherwise the read
goes through and the result is cached per the TTL policy. -/
def get_item {α} (cl : CacheLayer α) (key : String) (now : Nat)
    (c : Context) (lower : RResolver α) : Response α × CacheLayer α :=
  match cl.cache key with
  | some cached =>
    if cached.still_unexpired now then (cached, cl)
    else readThrough cl key now c lower
  | none => readThrough cl key now c lower

/-- The cache has no live entry for `key` at `now` (absent or expired). -/
def missAt {α} (cl : CacheLayer α) (key : String) (now : Nat) : Prop :=
  match cl.cache key with
  | none => True
  | some cached => cached.still_unexpired now = false

end CacheLayer

/-! AutoRefreshGetter, `loaders.py`.  The fetcher/constructor interactions
of one `read` call are parameters: what `fetcher.load_required` answers (or
raises), whether `is_enabled` holds, and what the fetch + layer
construction yields (a new layer, or the exception raised).  `Except` is
the result type: `.error` is an exception propagating out of `read`. -/

/-- An error arising during a refresh attempt: the three exception classes
`read` catches, or an exception of any other class. -/
inductive RefreshErr where
  | sourceMissing : RefreshErr
  | fetchFailure : RefreshErr
  | loadFailure : RefreshErr
  | unknown : RefreshErr
deriving Repr, DecidableEq

/-- Models `config.NullLayer` in its `Response`-protocol role (the cleared
/ never-loaded state of the refresh getter): everything is
`NotFoundContinue`. -/
def nullRLayer {α} : RLayer α := fun _ _ _ => Response.not_found

/-- The state of a `loaders.AutoRefreshGetter`. -/
structure AutoRefreshGetter (α : Type) where
  loaded_layer : RLayer α
  refresh_interval_s : Nat
  retry_interval_s : Nat
  next_load_s : Nat
  last_successful_load : Nat
  clear_on_removal : Bool
  clear_on_fetch_failure : Bool
  clear_on_load_failure : Bool

namespace AutoRefreshGetter

/-- The except-clauses of `AutoRefreshGetter.read`: `DataSourceMissing`
clears per `clear_on_removal` and sets `next_load_s = now + retry`;
`FetchFailure` and `converters.LoadFailure` clear per their flags and
execute `next_load_s += now + retry` (the source's literal `+=`); any
other exception has no matching except-clause and propagates. -/
def handleErr {α} (g : AutoRefreshGetter α) (now : Nat) : RefreshErr →
    Except RefreshErr (AutoRefreshGetter α)
  | .sourceMissing =>
    .ok { g with
          loaded_layer := if g.clear_on_removal then nullRLayer else g.loaded_layer,
          next_load_s := now + g.retry_interval_s }
  | .fetchFailure =>
    .ok { g with
          loaded_layer := if g.clear_on_fetch_failure then nullRLayer else g.loaded_layer,
          next_load_s := g.next_load_s + (now + g.retry_interval_s) }
  | .loadFailure =>
    .ok { g with
          loaded_layer := if g.clear_on_load_failure then nullRLayer else g.loaded_layer,
          next_load_s := g.next_load_s + (now + g.retry_interval_s) }
  | .unknown => .error .unknown

/-- Embeds `AutoRefreshGetter.read`.  When `next_load_s >= now` the loaded
layer is served directly.  Otherwise `load_required` is consulted (it may
itself raise); when no load is required the loaded layer is served; when
enabled, a successful fetch + construction swaps in the new layer, records
`last_successful_load = now` and executes
`next_load_s += now + refresh_interval_s` (the source's literal `+=`);
errors go through `handleErr`.  The call always answers from the
(possibly updated) loaded layer. -/
def read {α} (g : AutoRefreshGetter α) (now : Nat)
    (loadRequired : Except RefreshErr Bool) (enabled : Bool)
    (fetchResult : Except RefreshErr (RLayer α)) (rest : List String)
    (c : Context) (lower : RResolver α) :
    Except RefreshErr (Response α × AutoRefreshGetter α) :=
  let key := joinDots rest
  if g.next_load_s ≥ now then .ok (g.loaded_layer key c lower, g)
  else
    match loadRequired with
    | .error e =>
      match handleErr g now e with
      | .ok g' => .ok (g'.loaded_layer key c lower, g')
      | .error e' => .error e'
    | .ok false => .ok (g.loaded_layer key c lower, g)
    | .ok true =>
      if enabled then
        match fetchResult with
        | .ok newLayer =>
          let g' := { g with
                      loaded_layer := newLayer,
                      last_successful_load := now,
                      next_load_s := g.next_load_s + (now + g.refresh_interval_s) }
          .ok (g'.loaded_layer key c lower, g')
        | .error e =>
          match handleErr g now e with
          | .ok g' => .ok (g'.loaded_layer key c lower, g')
          | .error e' => .error e'
      else .ok (g.loaded_layer key c lower, g)

end AutoRefreshGetter

/-! The `Config` facade, `config.py`.  The facade sits on the tuple
protocol; the exception a lookup may raise distinguishes
`config.ValueTransformException` (the class `_get_item`'s except-clause
names) from `exceptions.ValueTransformException` (the distinct class of
the same name that `smarts.Transform` raises) and from any other
exception. -/

/-- An exception escaping the layer stack into the facade. -/
inductive StackExc (α : Type) where
  | cfgVTE (key : String) (raw : Option α) (cause : String) : StackExc α
  | excVTE (key : String) (raw : Option α) (cause : String) : StackExc α
  | other : StackExc α
deriving Repr, DecidableEq

/-- What a facade access yields: a returned value, a raised
`KeyError` / `ValueError` / generic `Exception`, or an exception that
propagated uncaught. -/
inductive PyOutcome (α : Type) where
  | value (v : Option α) : PyOutcome α
  | keyError (msg : String) : PyOutcome α
  | valueError (fmt : String) (raw : Option α) (key : String) (cause : String) : PyOutcome α
  | genericError : PyOutcome α
  | uncaught (e : StackExc α) : PyOutcome α
deriving Repr, DecidableEq

namespace Config

/-- Embeds `Config._get_item`: runs the layer lookup; a
`config.ValueTransformException` is converted to
`ValueError("could not parse value %s for key %s: %s", raw, key, cause)`;
any other exception -- including `exceptions.ValueTransformException`, a
different class -- propagates uncaught. -/
def getItemAux {α} (layerResult : Except (StackExc α) (GetResult α)) :
    Except (PyOutcome α) (GetResult α) :=
  match layerResult with
  | .ok r => .ok r
  | .error (.cfgVTE k raw cause) =>
    .error (.valueError "could not parse value %s for key %s: %s" raw k cause)
  | .error e => .error (.uncaught e)

/-- Embeds `Config.__getitem__` over the outcome of the layer lookup:
`Found` returns the value, `NotFound` raises
`KeyError("key ... not found")`, any other status raises a generic
`Exception`. -/
def getitem {α} (layerResult : Except (StackExc α) (GetResult α))
    (key : String) : PyOutcome α :=
  match getItemAux layerResult with
  | .error out => out
  | .ok (status, _cont, v) =>
    if status = ReadResult.Found then .value v
    else if status = ReadResult.NotFound then
      .keyError ("key " ++ key ++ " not found")
    else .genericError

/-- Embeds `Config.get(key, default)`: like `__getitem__` but `NotFound`
returns the caller-supplied default instead of raising. -/
def get {α} (layerResult : Except (StackExc α) (GetResult α))
    (_key : String) (dflt : Option α) : PyOutcome α :=
  match getItemAux layerResult with
  | .error out => out
  | .ok (status, _cont, v) =>
    if status = ReadResult.Found then .value v
    else if status = ReadResult.NotFound then .value dflt
    else .genericError

end Config

/-! Theorems. -/

/-- Helper: prepending a layer to the stack links it on top. -/
theorem layer_stack_cons {α} (l : PLayer α) (ls : List (PLayer α)) :
    layer_stack (l :: ls) = Chain.linked l (layer_stack ls) := by
  unfold layer_stack
  rw [List.reverse_cons, List.foldl_append]
  rfl

/-- Helper: an all-continue chain consulted with the null fallback resolves
to `(NotFound, Go, none)`. -/
theorem allContinue_get_item {α} (ch : Chain α) (key : String) (c : Context)
    (h : ch.allContinue) :
    ch.get_item key c NullLayer.get_item = (ReadResult.NotFound, Continue.Go, none) := by
  induction ch with
  | terminal => rfl
  | linked l sub ih =>
    obtain ⟨hl, hsub⟩ := h
    show Chain.get_item (.linked l sub) key c NullLayer.get_item = _
    rw [Chain.get_item]
    have h1 := hl key c (fun k c' => Chain.get_item sub k c' NullLayer.get_item)
    simp only [if_neg h1.1, if_neg h1.2]
    exact ih hsub

/-- C10: `Response.has_expired` is `True` exactly when `expire` is `None`
or `expire >= now`; in particular a `Found` response without an expiry
reports `has_expired = True`, and so does a response whose expiry lies in
the future. -/
theorem c10_response_has_expired {α} (r : Response α) (now : Nat) (v : Option α) :
    (r.has_expired now = true ↔ r.expire = none ∨ ∃ e, r.expire = some e ∧ e ≥ now)
    ∧ ((Response.found' v none).has_expired now = true)
    ∧ (∀ e, r.expire = some e → now < e → r.has_expired now = true) := by
  refine ⟨?_, rfl, ?_⟩
  · unfold Response.has_expired
    cases h : r.expire with
    | none => simp
    | some e => simp [h, ge_iff_le]
  · intro e he hlt
    unfold Response.has_expired
    rw [he]
    simpa using Nat.le_of_lt hlt

/-- Witness for C10 at a concrete response: expiry 10 lies in the future of
clock 7, so `has_expired` reports `true`. -/
theorem c10_response_has_expired_witness :
    (Response.mk true false false (some 5) (some 10) : Response Nat).has_expired 7 = true :=
  (c10_response_has_expired (Response.mk true false false (some 5) (some 10) : Response Nat)
    7 none).2.2 10 rfl (by decide)

/-- C2: a linked chain answers with its top layer's result when that result
is `Found` or `Stop` and otherwise falls through to the sublayer;
`layer_stack` links list elements in order; the terminal fallback (backed
by `NullLayer`) answers `(NotFound, Go, none)`; hence an all-continue chain
resolves to `NotFoundContinue` rather than erroring. -/
theorem c2_layer_chain_fallthrough {α} (l : PLayer α) (sub : Chain α)
    (layers : List (PLayer α)) (key : String) (c : Context)
    (lower : LowerResolver α) (ch : Chain α) :
    (∀ r, r = l key c (fun k c' => Chain.get_item sub k c' NullLayer.get_item) →
      ((r.1 = ReadResult.Found ∨ r.2.1 = Continue.Stop) →
        (Chain.linked l sub).get_item key c lower = r)
      ∧ (r.1 ≠ ReadResult.Found → r.2.1 ≠ Continue.Stop →
        (Chain.linked l sub).get_item key c lower = sub.get_item key c lower))
    ∧ (layer_stack (l :: layers) = Chain.linked l (layer_stack layers))
    ∧ ((Chain.terminal : Chain α).get_item key c NullLayer.get_item
        = (ReadResult.NotFound, Continue.Go, none))
    ∧ (ch.allContinue →
        ch.get_item key c NullLayer.get_item = (ReadResult.NotFound, Continue.Go, none)) := by
  refine ⟨?_, layer_stack_cons l layers, rfl, allContinue_get_item ch key c⟩
  intro r hr
  constructor
  · intro hdec
    rw [Chain.get_item, ← hr]
    rcases hdec with hf | hs
    · rw [if_pos hf]
    · by_cases hf : r.1 = ReadResult.Found
      · rw [if_pos hf]
      · rw [if_neg hf, if_pos hs]
  · intro hf hs
    rw [Chain.get_item, ← hr, if_neg hf, if_neg hs]

/-- Witness for C2: a top layer that answers `Found` short-circuits a
concrete two-element chain. -/
theorem c2_layer_chain_fallthrough_witness :
    (Chain.linked (fun _ _ _ => (ReadResult.Found, Continue.Go, some (5 : Nat)))
        Chain.terminal).get_item "k" ⟨[]⟩ NullLayer.get_item
      = (ReadResult.Found, Continue.Go, some 5) :=
  ((c2_layer_chain_fallthrough
      (fun _ _ _ => (ReadResult.Found, Continue.Go, some (5 : Nat)))
      Chain.terminal [] "k" ⟨[]⟩ NullLayer.get_item Chain.terminal).1
    (ReadResult.Found, Continue.Go, some 5) rfl).1 (Or.inl rfl)

/-- C5: a live cached entry is served without consulting the wrapped
source; on a miss, `Found` responses are cached until `now + ttl_s`,
not-found responses pass through uncached when the negative TTL is zero
and are cached until `now + negative_ttl_s` otherwise, and a response
already carrying an expiry is cached with that expiry unchanged. -/
theorem c5_cache_layer {α} (cl : CacheLayer α) (key : String) (now : Nat)
    (c : Context) (lower : RResolver α) :
    (∀ cached, cl.cache key = some cached → cached.still_unexpired now = true →
      ∀ lower' : RResolver α, cl.get_item key now c lower' = (cached, cl))
    ∧ (cl.missAt key now →
        ((lower key c).is_found = true → (lower key c).expire = none →
          cl.get_item key now c lower =
            ((lower key c).cache_until (now + cl.ttl_s),
             { cl with cache := cacheInsert cl.cache key ((lower key c).cache_until (now + cl.ttl_s)) }))
        ∧ ((lower key c).is_found = false → cl.negative_ttl_s = 0 →
            cl.get_item key now c lower = (lower key c, cl))
        ∧ ((lower key c).is_found = false → (lower key c).expire = none →
            cl.negative_ttl_s ≠ 0 →
            cl.get_item key now c lower =
              ((lower key c).cache_until (now + cl.negative_ttl_s),
               { cl with cache := cacheInsert cl.cache key ((lower key c).cache_until (now + cl.negative_ttl_s)) }))
        ∧ (∀ e, (lower key c).expire = some e →
            ((lower key c).is_found = true ∨ cl.negative_ttl_s ≠ 0) →
            cl.get_item key now c lower =
              (lower key c, { cl with cache := cacheInsert cl.cache key (lower key c) }))) := by
  constructor
  · intro cached hc hun lower'
    simp [CacheLayer.get_item, hc, hun]
  · intro hmiss
    have hthrough : cl.get_item key now c lower = cl.readThrough key now c lower := by
      unfold CacheLayer.get_item
      cases hc : cl.cache key with
      | none => rfl
      | some cached =>
        simp only [CacheLayer.missAt, hc] at hmiss
        simp [hmiss]
    refine ⟨?_, ?_, ?_, ?_⟩
    · intro hf he
      rw [hthrough]
      simp [CacheLayer.readThrough, cacheStore, hf, he]
    · intro hf hz
      rw [hthrough]
      simp [CacheLayer.readThrough, hf, hz]
    · intro hf he hnz
      rw [hthrough]
      simp [CacheLayer.readThrough, cacheStore, hf, he, hnz]
    · intro e he hcase
      rw [hthrough]
      rcases hcase with hf | hnz
      · simp [CacheLayer.readThrough, cacheStore, hf, he]
      · cases hf : (lower key c).is_found with
        | true => simp [CacheLayer.readThrough, cacheStore, hf, he]
        | false => simp [CacheLayer.readThrough, cacheStore, hf, he, hnz]

/-- Witness for C5: a fresh cache with positive TTL 5 and negative TTL 0
caches a found value at clock 7 with expiry 12. -/
theorem c5_cache_layer_witness :
    CacheLayer.get_item (⟨fun _ => none, 5, 0⟩ : CacheLayer Nat) "a" 7 ⟨[]⟩
        (fun _ _ => Response.found' (some 3) none)
      = (Response.found' (some 3) (some 12),
         { (⟨fun _ => none, 5, 0⟩ : CacheLayer Nat) with
           cache := cacheInsert (fun _ => none) "a" (Response.found' (some 3) (some 12)) }) :=
  ((c5_cache_layer (⟨fun _ => none, 5, 0⟩ : CacheLayer Nat) "a" 7 ⟨[]⟩
      (fun _ _ => Response.found' (some 3) none)).2 trivial).1 rfl rfl

/-- Helper: one failing placeholder makes the whole replacement collection
fail. -/
theorem expandReplacements_fail (c : Context) (lower : RResolver String) :
    ∀ exps (e : String), e ∈ exps →
    (if isDigitExp e then c.globs = [] ∨ c.globs.lookup e = none
     else (lower e c).is_found = false) →
    expandReplacements c lower exps = none := by
  intro exps
  induction exps with
  | nil => intro e he; cases he
  | cons e₀ es ih =>
    intro e he hfail
    rcases List.mem_cons.mp he with rfl | hmem
    · unfold expandReplacements
      by_cases hd : isDigitExp e = true
      · rw [if_pos hd] at hfail ⊢
        rcases hfail with hg | hl
        · rw [if_pos hg]
        · by_cases hge : c.globs = []
          · rw [if_pos hge]
          · rw [if_neg hge, hl]
      · rw [if_neg hd] at hfail ⊢
        simp [hfail]
    · unfold expandReplacements
      by_cases hd : isDigitExp e₀ = true
      · rw [if_pos hd]
        by_cases hg : c.globs = []
        · rw [if_pos hg]
        · rw [if_neg hg]
          cases hl : c.globs.lookup e₀ with
          | none => rfl
          | some v => simp [ih e hmem hfail]
      · rw [if_neg hd]
        cases hf : (lower e₀ c).is_found with
        | false => simp [hf]
        | true => simp [hf, ih e hmem hfail]

/-- Helper: templates whose placeholders are all numeric never consult the
layer chain. -/
theorem expandReplacements_digits_only (c : Context)
    (lower lower' : RResolver String) : ∀ exps : List String,
    (∀ e ∈ exps, isDigitExp e = true) →
    expandReplacements c lower exps = expandReplacements c lower' exps := by
  intro exps
  induction exps with
  | nil => intro _; rfl
  | cons e es ih =>
    intro h
    have hd := h e (List.mem_cons_self e es)
    have hes := fun e' he' => h e' (List.mem_cons_of_mem e he')
    unfold expandReplacements
    rw [if_pos hd, if_pos hd, ih hes]

/-- Helper: when every placeholder resolves, the replacement list is the
placeholder list paired with resolved values, in order. -/
theorem expandReplacements_resolved (c : Context) (lower : RResolver String) :
    ∀ exps : List String,
    (∀ e ∈ exps, if isDigitExp e then c.globs ≠ [] ∧ (c.globs.lookup e).isSome
                 else (lower e c).is_found = true) →
    expandReplacements c lower exps =
      some (exps.map (fun e => (placeholder e,
        if isDigitExp e then (c.globs.lookup e).getD ""
        else (lower e c).value.getD ""))) := by
  intro exps
  induction exps with
  | nil => intro _; rfl
  | cons e es ih =>
    intro h
    have he := h e (List.mem_cons_self e es)
    have hes := fun e' he' => h e' (List.mem_cons_of_mem e he')
    unfold expandReplacements
    by_cases hd : isDigitExp e = true
    · rw [if_pos hd] at he ⊢
      obtain ⟨hg, hsome⟩ := he
      obtain ⟨v, hv⟩ := Option.isSome_iff_exists.mp hsome
      rw [if_neg hg, hv, ih hes]
      simp [hd, hv]
    · rw [if_neg hd] at he ⊢
      simp [he, ih hes, hd]

/-- C6: expansion of a template with no placeholders returns it unchanged;
one unresolvable placeholder (a numeric one missing from the
wildcard-capture bindings, or a named one the layer chain does not find)
makes the whole expansion return no value, never a partial string; numeric
placeholders are resolved from the capture context, independent of the
layer chain; and when every placeholder resolves, all of them are
substituted. -/
theorem c6_expand (tmpl : String) (exps : List String) (c : Context)
    (lower lower' : RResolver String) :
    (expand tmpl [] c lower = some tmpl)
    ∧ (∀ e ∈ exps,
        (if isDigitExp e then c.globs = [] ∨ c.globs.lookup e = none
         else (lower e c).is_found = false) →
        expand tmpl exps c lower = none)
    ∧ ((∀ e ∈ exps, isDigitExp e = true) →
        expand tmpl exps c lower = expand tmpl exps c lower')
    ∧ ((∀ e ∈ exps,
         if isDigitExp e then c.globs ≠ [] ∧ (c.globs.lookup e).isSome
         else (lower e c).is_found = true) →
        expand tmpl exps c lower =
          some (exps.foldl
            (fun t e => pyReplace t (placeholder e)
              (if isDigitExp e then (c.globs.lookup e).getD ""
               else (lower e c).value.getD "")) tmpl)) := by
  refine ⟨rfl, ?_, ?_, ?_⟩
  · intro e he hfail
    unfold expand
    rw [expandReplacements_fail c lower exps e he hfail]
  · intro hall
    unfold expand
    rw [expandReplacements_digits_only c lower lower' exps hall]
  · intro hall
    unfold expand
    rw [expandReplacements_resolved c lower exps hall]
    simp [List.foldl_map]

/-- Witness for C6: the template `a-\x7benv\x7d.\x7b1\x7d` expands to
`a-prod.X` when `env` resolves to `prod` through the layer chain and the
numeric placeholder `1` is bound to `X` in the capture context. -/
theorem c6_expand_witness :
    expand "a-\x7benv\x7d.\x7b1\x7d" ["env", "1"] ⟨[("1", "X")]⟩
        (fun k _ => if k = "env" then Response.found' (some "prod") none
                    else Response.not_found)
      = some "a-prod.X" :=
  ((c6_expand "a-\x7benv\x7d.\x7b1\x7d" ["env", "1"] ⟨[("1", "X")]⟩
      (fun k _ => if k = "env" then Response.found' (some "prod") none
                  else Response.not_found)
      (fun k _ => if k = "env" then Response.found' (some "prod") none
                  else Response.not_found)).2.2.2 (by decide)).trans (by decide)

/-- C7: `Transform` passes non-`Found` responses through unchanged without
invoking the transform function; a raising transform on a `Found` response
becomes a `ValueTransformException` carrying the key and the untransformed
value; `IgnoreTransformErrors` converts exactly that exception to
`NotFoundContinue` and passes every other outcome through. -/
theorem c7_transform_errors {α} (f f' : Option α → Except Unit (Option α))
    (getter getter' : EGetter α) (key : String) (res : List String)
    (c : Context) (lower : RResolver α) :
    (∀ resp, getter key res c lower = .ok resp → resp.is_found = false →
      Transform.read f getter key res c lower = .ok resp
      ∧ Transform.read f getter key res c lower
          = Transform.read f' getter key res c lower)
    ∧ (∀ resp, getter key res c lower = .ok resp → resp.is_found = true →
        f resp.value = .error () →
        Transform.read f getter key res c lower = .error (.vte key resp.value))
    ∧ (∀ k raw, getter' key res c lower = .error (.vte k raw) →
        IgnoreTransformErrors.read getter' key res c lower = .ok Response.not_found)
    ∧ (getter' key res c lower = .error .other →
        IgnoreTransformErrors.read getter' key res c lower = .error .other)
    ∧ (∀ r, getter' key res c lower = .ok r →
        IgnoreTransformErrors.read getter' key res c lower = .ok r) := by
  refine ⟨?_, ?_, ?_, ?_, ?_⟩
  · intro resp hg hnf
    constructor
    · simp [Transform.read, hg, hnf]
    · simp [Transform.read, hg, hnf]
  · intro resp hg hf hraise
    simp [Transform.read, hg, hf, hraise]
  · intro k raw hg
    simp [IgnoreTransformErrors.read, hg]
  · intro hg
    simp [IgnoreTransformErrors.read, hg]
  · intro r hg
    simp [IgnoreTransformErrors.read, hg]

/-- Witness for C7: a transform that raises over a found value 5 becomes a
`ValueTransformException` carrying the key and the raw value 5. -/
theorem c7_transform_errors_witness :
    Transform.read (fun _ => .error ())
        (fun _ _ _ _ => .ok (Response.found' (some (5 : Nat)) none)) "a.b" [] ⟨[]⟩
        (fun _ _ => Response.not_found)
      = .error (.vte "a.b" (some 5)) :=
  (c7_transform_errors (fun _ => .error ()) (fun _ => .error ())
      (fun _ _ _ _ => .ok (Response.found' (some (5 : Nat)) none))
      (fun _ _ _ _ => .ok (Response.found' (some (5 : Nat)) none)) "a.b" [] ⟨[]⟩
      (fun _ _ => Response.not_found)).2.1
    (Response.found' (some 5) none) rfl rfl rfl

/-- Counterexample for C8: the claim says a stop response from the grafted
sub-layer is returned as-is, but `Graft.read` re-wraps it as
`found_next(None)`. -/
theorem c8_graft_counterexample :
    Graft.read (fun _ _ _ => (Response.not_found_stop : Response Nat)) "a" ["b"] ⟨[]⟩
        (fun _ _ => Response.not_found)
      = Response.found_next none
    ∧ Response.found_next (none : Option Nat) ≠ Response.not_found_stop := by
  exact ⟨rfl, by decide⟩

/-- C8 (amended): `Graft.read` looks the dot-joined rest up in its
sub-layer; every response that is not already found-with-next-layer --
including `Found`, `NotFoundContinue` and `NotFoundStop` -- is re-wrapped
as `found_next` carrying the response's value; only a response that is both
found and next-layer is returned unchanged. -/
theorem c8_graft_rewrap {α} (layer : RLayer α) (key : String)
    (rest : List String) (c : Context) (lower : RResolver α) :
    ∀ resp, resp = layer (joinDots rest) c lower →
      ((resp.is_found = false ∨ resp.go_next_layer = false) →
        Graft.read layer key rest c lower = Response.found_next resp.value)
      ∧ (resp.is_found = true → resp.go_next_layer = true →
        Graft.read layer key rest c lower = resp) := by
  intro resp hresp
  unfold Graft.read
  rw [← hresp]
  constructor
  · intro hcase
    rcases hcase with hnf | hnn
    · simp [hnf]
    · simp [hnn]
  · intro hf hn
    simp [hf, hn]

/-- Witness for C8: a plain `Found` response from the sub-layer is
re-wrapped as `found_next` with the same value. -/
theorem c8_graft_rewrap_witness :
    Graft.read (fun _ _ _ => Response.found' (some (2 : Nat)) none) "a" ["b"] ⟨[]⟩
        (fun _ _ => Response.not_found)
      = Response.found_next (some 2) :=
  ((c8_graft_rewrap (fun _ _ _ => Response.found' (some (2 : Nat)) none) "a" ["b"] ⟨[]⟩
      (fun _ _ => Response.not_found)) (Response.found' (some 2) none) rfl).1
    (Or.inr rfl)

/-- C3 (code evaluation at the failing input): the fast path holds -- at
clock 150 with `next_load_s = 160` the loaded layer is served and the
fetcher's outcome is irrelevant -- and the first refresh at clock 100 from
the initial state happens to set `next_load_s = 0 + (100 + 60) = 160`; but
a second successful refresh at clock 200 executes
`next_load_s += now + refresh_interval_s`, yielding `160 + (200 + 60) =
420` instead of the `now + refresh_interval = 260` the claim states. -/
theorem c3_autorefresh_next_check_eval :
    ((AutoRefreshGetter.read
        (⟨fun _ _ _ => Response.found' (some (1 : Nat)) none, 60, 10, 160, 100,
          false, false, false⟩ : AutoRefreshGetter Nat)
        150 (.error .unknown) true (.error .unknown) ["a"] ⟨[]⟩
        (fun _ _ => Response.not_found)).map
          (fun p => (p.1, p.2.next_load_s))
      = .ok (Response.found' (some 1) none, 160))
    ∧ ((AutoRefreshGetter.read
          (⟨nullRLayer, 60, 10, 0, 0, false, false, false⟩ : AutoRefreshGetter Nat)
          100 (.ok true) true (.ok (fun _ _ _ => Response.found' (some (1 : Nat)) none))
          ["a"] ⟨[]⟩ (fun _ _ => Response.not_found)).map
            (fun p => (p.1, p.2.next_load_s, p.2.last_successful_load))
        = .ok (Response.found' (some 1) none, 160, 100))
    ∧ ((AutoRefreshGetter.read
          (⟨fun _ _ _ => Response.found' (some (1 : Nat)) none, 60, 10, 160, 100,
            false, false, false⟩ : AutoRefreshGetter Nat)
          200 (.ok true) true (.ok (fun _ _ _ => Response.found' (some (2 : Nat)) none))
          ["a"] ⟨[]⟩ (fun _ _ => Response.not_found)).map
            (fun p => p.2.next_load_s)
        = .ok 420)
    ∧ (420 : Nat) ≠ 200 + 60 := by
  exact ⟨rfl, rfl, rfl, by decide⟩

/-- C4 (code evaluation at the failing input): from the post-first-refresh
state (`next_load_s = 160`) at clock 200 with retry interval 10: a
`DataSourceMissing` sets `next_load_s = 210 = now + retry` as the claim
says, but a `FetchFailure` executes `next_load_s += now + retry`, yielding
`370`; the keep-stale and clear policies are applied (stale value 1 vs
cleared not-found); and an exception of any unrecognized class has no
matching except-clause and propagates out of `read`, contradicting the
claim that every refresh error is caught. -/
theorem c4_autorefresh_error_handling_eval :
    ((AutoRefreshGetter.read
        (⟨fun _ _ _ => Response.found' (some (1 : Nat)) none, 60, 10, 160, 100,
          false, false, false⟩ : AutoRefreshGetter Nat)
        200 (.error .sourceMissing) true (.error .sourceMissing) ["a"] ⟨[]⟩
        (fun _ _ => Response.not_found)).map (fun p => (p.1, p.2.next_load_s))
      = .ok (Response.found' (some 1) none, 210))
    ∧ ((AutoRefreshGetter.read
          (⟨fun _ _ _ => Response.found' (some (1 : Nat)) none, 60, 10, 160, 100,
            false, false, false⟩ : AutoRefreshGetter Nat)
          200 (.ok true) true (.error .fetchFailure) ["a"] ⟨[]⟩
          (fun _ _ => Response.not_found)).map (fun p => (p.1, p.2.next_load_s))
        = .ok (Response.found' (some 1) none, 370))
    ∧ (370 : Nat) ≠ 200 + 10
    ∧ ((AutoRefreshGetter.read
          (⟨fun _ _ _ => Response.found' (some (1 : Nat)) none, 60, 10, 160, 100,
            false, true, false⟩ : AutoRefreshGetter Nat)
          200 (.ok true) true (.error .fetchFailure) ["a"] ⟨[]⟩
          (fun _ _ => Response.not_found)).map (fun p => (p.1, p.2.next_load_s))
        = .ok (Response.not_found, 370))
    ∧ (AutoRefreshGetter.read
          (⟨fun _ _ _ => Response.found' (some (1 : Nat)) none, 60, 10, 160, 100,
            false, false, false⟩ : AutoRefreshGetter Nat)
          200 (.ok true) true (.error .unknown) ["a"] ⟨[]⟩
          (fun _ _ => Response.not_found)
        = .error .unknown) := by
  exact ⟨rfl, rfl, by decide, rfl, rfl⟩

/-- C9 (code evaluation at the failing input): strict access returns the
found value and raises a `KeyError` on not-found; permissive access
returns the default on not-found; the facade's except-clause converts its
own `config.ValueTransformException` class into a `ValueError` retaining
the raw value, the key and the cause; but the distinct class
`exceptions.ValueTransformException` -- the one `smarts.Transform`
actually raises -- matches no except-clause and propagates uncaught
instead of being converted. -/
theorem c9_config_facade_eval :
    (Config.getitem (.ok (ReadResult.Found, Continue.Go, some (5 : Nat))) "a.b"
      = .value (some 5))
    ∧ (Config.getitem (.ok (ReadResult.NotFound, Continue.NextLayer, (none : Option Nat))) "a.b"
      = .keyError "key a.b not found")
    ∧ (Config.get (.ok (ReadResult.NotFound, Continue.NextLayer, (none : Option Nat))) "a.b" (some 9)
      = .value (some 9))
    ∧ (Config.get (.ok (ReadResult.Found, Continue.Go, some (5 : Nat))) "a.b" (some 9)
      = .value (some 5))
    ∧ (Config.getitem (.error (.cfgVTE "a.b" (some (5 : Nat)) "Oops")) "a.b"
      = .valueError "could not parse value %s for key %s: %s" (some 5) "a.b" "Oops")
    ∧ (Config.getitem (.error (.excVTE "a.b" (some (5 : Nat)) "Oops")) "a.b"
      = .uncaught (.excVTE "a.b" (some 5) "Oops")) := by
  exact ⟨by decide, by decide, by decide, by decide, rfl, rfl⟩

/-- Helper: under the three-way protocol, the source's pattern loop for
one prefix length agrees with the claim's candidate run over the matching
patterns, with an arbitrary continuation list. -/
theorem runCandidates_patterns {α} (c : Context) (lower : RResolver α)
    (k : String) (pref rest : List String) :
    ∀ ps : List (Pattern × SGetter α), (∀ pg ∈ ps, protoG pg.2) →
    ∀ tail,
      runCandidates c lower
        (((ps.filter (fun pg => patMatch pg.1 pref)).map
            (fun pg => (k, rest, pg.2))) ++ tail)
      = match SmartLayer.tryPatterns k pref rest c lower ps with
        | some r => r
        | none => runCandidates c lower tail := by
  intro ps
  induction ps with
  | nil => intro _ tail; rfl
  | cons pg ps ih =>
    intro hps tail
    have hpg : (pg.2 k rest c lower).go_next_layer = false :=
      hps pg (List.mem_cons_self pg ps) k rest c lower
    have hps' := fun pg' h => hps pg' (List.mem_cons_of_mem pg h)
    cases hm : patMatch pg.1 pref with
    | false =>
      rw [SmartLayer.tryPatterns]
      simp only [List.filter_cons, hm]
      simp only [Bool.false_eq_true, if_false]
      exact ih hps' tail
    | true =>
      rw [SmartLayer.tryPatterns]
      simp only [List.filter_cons, hm, if_true, List.map_cons, List.cons_append]
      cases hd : ((pg.2 k rest c lower).is_found || (pg.2 k rest c lower).must_stop) with
      | true =>
        have hdec : SmartLayer.decisive (pg.2 k rest c lower) = true := by
          simp [SmartLayer.decisive, hpg] at hd ⊢
          exact hd
        simp only [runCandidates, hd, hdec, if_true]
      | false =>
        have hdec : SmartLayer.decisive (pg.2 k rest c lower) = false := by
          simp [SmartLayer.decisive, hpg] at hd ⊢
          exact hd
        simp only [runCandidates, hd, hdec]
        simp only [Bool.false_eq_true, if_false]
        exact ih hps' tail

/-- Helper: under the three-way protocol, the source's prefix-length loop
agrees with the claim's candidate run over the flattened candidate
lists. -/
theorem tryFrom_eq_runCandidates {α} (sl : SmartLayer α) (indexes : List String)
    (c : Context) (lower : RResolver α)
    (hc : ∀ k g, sl.constant_key_getters k = some g → protoG g)
    (hp : ∀ i pg, pg ∈ sl.key_pattern_getters i → protoG pg.2) :
    ∀ is : List Nat,
      sl.tryFrom indexes c lower is
        = runCandidates c lower (is.flatMap (fun i =>
            (match sl.constant_key_getters (joinDots (indexes.take i)) with
             | some g => [(joinDots (indexes.take i), indexes.drop i, g)]
             | none => [])
            ++ ((sl.key_pattern_getters i).filter
                  (fun pg => patMatch pg.1 (indexes.take i))).map
                (fun pg => (joinDots (indexes.take i), indexes.drop i, pg.2)))) := by
  intro is
  induction is with
  | nil => rfl
  | cons i is ih =>
    rw [List.flatMap_cons, SmartLayer.tryFrom]
    cases hk : sl.constant_key_getters (joinDots (indexes.take i)) with
    | none =>
      simp only [hk, List.nil_append, List.append_assoc]
      rw [runCandidates_patterns c lower (joinDots (indexes.take i))
        (indexes.take i) (indexes.drop i) (sl.key_pattern_getters i) (hp i) _]
      cases ht : SmartLayer.tryPatterns (joinDots (indexes.take i)) (indexes.take i)
          (indexes.drop i) c lower (sl.key_pattern_getters i) with
      | some r => rfl
      | none => exact ih
    | some g =>
      have hg : (g (joinDots (indexes.take i)) (indexes.drop i) c lower).go_next_layer = false :=
        hc (joinDots (indexes.take i)) g hk (joinDots (indexes.take i)) (indexes.drop i) c lower
      simp only [hk, List.append_assoc, List.singleton_append]
      cases hd : ((g (joinDots (indexes.take i)) (indexes.drop i) c lower).is_found
          || (g (joinDots (indexes.take i)) (indexes.drop i) c lower).must_stop) with
      | true =>
        have hdec : SmartLayer.decisive (g (joinDots (indexes.take i)) (indexes.drop i) c lower)
            = true := by
          simp [SmartLayer.decisive, hg] at hd ⊢
          exact hd
        simp only [runCandidates, hd, hdec, if_true]
      | false =>
        have hdec : SmartLayer.decisive (g (joinDots (indexes.take i)) (indexes.drop i) c lower)
            = false := by
          simp [SmartLayer.decisive, hg] at hd ⊢
          exact hd
        simp only [runCandidates, hd, hdec]
        simp only [Bool.false_eq_true, if_false, List.nil_append, List.append_eq]
        rw [runCandidates_patterns c lower (joinDots (indexes.take i))
          (indexes.take i) (indexes.drop i) (sl.key_pattern_getters i) (hp i) _]
        cases ht : SmartLayer.tryPatterns (joinDots (indexes.take i)) (indexes.take i)
            (indexes.drop i) c lower (sl.key_pattern_getters i) with
        | some r => rfl
        | none => exact ih

/-- C1: for a dotted key and a smart layer with no root registration whose
getters obey the three-way response protocol, `SmartLayer.get_item` equals
the claim's search: candidate prefixes of length 1 up to n are tried in
order, the exact-literal registration before the wildcard patterns at each
length; the first `Found` or `NotFoundStop` response is the result,
`NotFoundContinue` moves on, and exhaustion yields `NotFoundContinue`. -/
theorem c1_smartlayer_dispatch {α} (sl : SmartLayer α) (key : String)
    (c : Context) (lower : RResolver α)
    (hroot : sl.constant_key_getters "" = none) (hkey : key ≠ "")
    (hc : ∀ k g, sl.constant_key_getters k = some g → protoG g)
    (hp : ∀ i pg, pg ∈ sl.key_pattern_getters i → protoG pg.2) :
    sl.get_item key c lower
      = runCandidates c lower (claimCandidates sl (splitDots key)) := by
  unfold SmartLayer.get_item claimCandidates
  simp only [hroot, hkey, Option.isNone_none, Bool.and_true, decide_eq_true_eq, if_false,
    decide_eq_false hkey, Bool.false_and, Bool.false_eq_true]
  exact tryFrom_eq_runCandidates sl (splitDots key) c lower hc hp _

/-- Witness for C1 on a concrete layer: with the literal `a.b` and the
wildcard pattern over two segments ending in `b` both registered, the key
`a.b.c` dispatches to the literal getter (literal preferred over wildcard
at equal prefix length), matching the claim's candidate run. -/
theorem c1_smartlayer_dispatch_witness :
    SmartLayer.get_item
        (⟨fun k => if k = "a.b" then some (fun _ _ _ _ => Response.found' (some (5 : Nat)) none)
                   else none,
          fun i => if i = 2 then
              [([PatSeg.wild, PatSeg.lit "b"], fun _ _ _ _ => Response.found' (some 7) none)]
            else []⟩ : SmartLayer Nat)
        "a.b.c" ⟨[]⟩ (fun _ _ => Response.not_found)
      = runCandidates ⟨[]⟩ (fun _ _ => Response.not_found)
          (claimCandidates
            (⟨fun k => if k = "a.b" then some (fun _ _ _ _ => Response.found' (some (5 : Nat)) none)
                       else none,
              fun i => if i = 2 then
                  [([PatSeg.wild, PatSeg.lit "b"], fun _ _ _ _ => Response.found' (some 7) none)]
                else []⟩ : SmartLayer Nat)
            (splitDots "a.b.c"))
    ∧ SmartLayer.get_item
        (⟨fun k => if k = "a.b" then some (fun _ _ _ _ => Response.found' (some (5 : Nat)) none)
                   else none,
          fun i => if i = 2 then
              [([PatSeg.wild, PatSeg.lit "b"], fun _ _ _ _ => Response.found' (some 7) none)]
            else []⟩ : SmartLayer Nat)
        "a.b.c" ⟨[]⟩ (fun _ _ => Response.not_found)
      = Response.found' (some 5) none := by
  constructor
  · apply c1_smartlayer_dispatch
    · rfl
    · decide
    · intro k g h
      have h' : (if k = "a.b" then some (fun _ _ _ _ => Response.found' (some (5 : Nat)) none)
                 else none) = some g := h
      by_cases hk : k = "a.b"
      · rw [if_pos hk] at h'
        cases h'
        intro k' rest c' lower'
        rfl
      · rw [if_neg hk] at h'
        cases h'
    · intro i pg hmem
      have hmem' : pg ∈ (if i = 2 then
          [(([PatSeg.wild, PatSeg.lit "b"] : Pattern),
            (fun _ _ _ _ => Response.found' (some (7 : Nat)) none : SGetter Nat))]
          else []) := hmem
      by_cases hi : i = 2
      · rw [if_pos hi] at hmem'
        rcases List.mem_singleton.mp hmem' with rfl
        intro k' rest c' lower'
        rfl
      · rw [if_neg hi] at hmem'
        cases hmem'
  · decide

end Superconfig
